import Mathlib

/-!
Shallow embedding of the user-record CRUD program in `src/src/main.rs`.

The program keeps a `HashMap<String, User>` behind an `Arc<Mutex<..>>`
(`UserDatabase`), offers five store operations (`set_user`, `get_user`,
`get_users`, `update_user`, `delete_user`), persists the whole map to
`users_data.txt` via `serde_json`, and drives everything from an interactive
menu loop (`main` / `display_menu`).

Embedding choices:
* The locked map is modelled as an association list `Db := List (String × User)`;
  the single mutex serialises all access, so each operation is a pure function
  from the map (and its arguments) to a result together with the map afterwards.
* Errors are the exact message strings the Rust code puts in `Box<dyn Error>`.
* `chrono::NaiveDate` is modelled as a `year/month/day` record; the program only
  ever stores dates validated by `input_user` (year 1909..=2024, real calendar
  date).
* `serde_json` text is modelled one level up, as a JSON tree (`Json`): the file
  holds the serialised document; string escaping is the library's concern, not
  this program's.
-/

/-- `UserRole` from main.rs: `Admin | User | Guest`. -/
inductive UserRole where
  | Admin : UserRole
  | User : UserRole
  | Guest : UserRole
  deriving DecidableEq, Repr

/-- Model of `chrono::NaiveDate` restricted to the calendar dates this program
can store (non-negative years; `input_user` admits only 1909..=2024). -/
structure Date where
  year : Nat
  month : Nat
  day : Nat
  deriving DecidableEq, Repr

/-- `struct User` from main.rs: `cpf`, `full_name`, `email`, `birth`, `role`. -/
structure User where
  cpf : String
  full_name : String
  email : String
  birth : Date
  role : UserRole
  deriving DecidableEq, Repr

/-- The contents of the `HashMap<String, User>` behind the mutex, as an
association list of key/record entries (every reachable map has pairwise
distinct keys, so entry order is the only representation slack). -/
abbrev Db := List (String × User)

/-- The error message `set_user` returns on a duplicate key
(`"CPF já cadastrado!"`), i.e. the `DuplicateKey` error kind. -/
def duplicateKeyMsg : String := "CPF já cadastrado!"

/-- The error message `get_user`, `update_user` and `delete_user` return on a
missing key (`"Usuário não encontrado!"`), i.e. the `NotFound` error kind. -/
def notFoundMsg : String := "Usuário não encontrado!"

/-- `db.contains_key(cpf)` on the hash map. -/
def dbContains : Db → String → Bool
  | [], _ => false
  | (k, _) :: rest, cpf => k = cpf || dbContains rest cpf

/-- `db.get(cpf)` on the hash map: the record stored under `cpf`, if any. -/
def dbGet : Db → String → Option User
  | [], _ => none
  | (k, v) :: rest, cpf => if k = cpf then some v else dbGet rest cpf

/-- `*db.get_mut(cpf) = u`: replace the value stored under `cpf`, keeping the
key and every other entry. -/
def dbAssign : Db → String → User → Db
  | [], _, _ => []
  | (k, v) :: rest, cpf, u =>
    if k = cpf then (k, u) :: dbAssign rest cpf u else (k, v) :: dbAssign rest cpf u

/-- `db.remove(cpf)` on the hash map: drop the entry keyed `cpf`. -/
def dbRemove : Db → String → Db
  | [], _ => []
  | (k, v) :: rest, cpf =>
    if k = cpf then dbRemove rest cpf else (k, v) :: dbRemove rest cpf

/-- `set_user` (main.rs:228-238): under the lock, fail with
`"CPF já cadastrado!"` if `user.cpf` is already a key, else insert a clone of
`user` under `user.cpf` and return it. Result paired with the map afterwards. -/
def set_user (db : Db) (user : User) : Except String User × Db :=
  if dbContains db user.cpf then
    (Except.error duplicateKeyMsg, db)
  else
    (Except.ok user, (user.cpf, user) :: db)

/-- `get_users` (main.rs:240-243): under the lock, return a clone of the whole
map; never fails. Result paired with the map afterwards. -/
def get_users (db : Db) : Except String Db × Db :=
  (Except.ok db, db)

/-- `get_user` (main.rs:245-252): under the lock, return a clone of the record
under `cpf`, or fail with `"Usuário não encontrado!"`. Result paired with the
map afterwards. -/
def get_user (db : Db) (cpf : String) : Except String User × Db :=
  match dbGet db cpf with
  | some user => (Except.ok user, db)
  | none => (Except.error notFoundMsg, db)

/-- `update_user` (main.rs:254-263): under the lock, if `cpf` is present,
overwrite the stored record wholesale with `new_user` (`*user =
new_user.clone()`) and return the new value; otherwise fail with
`"Usuário não encontrado!"`. No comparison of `new_user.cpf` against `cpf` is
performed. -/
def update_user (db : Db) (cpf : String) (new_user : User) : Except String User × Db :=
  if dbContains db cpf then
    (Except.ok new_user, dbAssign db cpf new_user)
  else
    (Except.error notFoundMsg, db)

/-- `delete_user` (main.rs:265-273): under the lock, remove the entry keyed
`cpf`, failing with `"Usuário não encontrado!"` if `db.remove` returned
`None`. -/
def delete_user (db : Db) (cpf : String) : Except String Unit × Db :=
  match dbGet db cpf with
  | some _ => (Except.ok (), dbRemove db cpf)
  | none => (Except.error notFoundMsg, db)

/-! ## Persistence adapter

`save_users_to_file` (main.rs:49-54) serialises the whole map with
`serde_json::to_string` and overwrites `users_data.txt`;
`load_users_from_file` (main.rs:40-47) reads that file if it exists, parses it
with `serde_json::from_str` (propagating a parse error with `?`), and replaces
the in-memory map with the result. The file is modelled as `Option Json`
(`none` = file absent); the serde derive for `User` is mirrored field by field,
with `NaiveDate` (de)serialised through its ISO `YYYY-MM-DD` string form. -/

/-- JSON documents, as far as this program's snapshot ever uses them:
strings and objects (the serde derive writes `User` as an object of strings
and the map as an object of `User` objects). Any other JSON shape is covered
by `other`, which no serialisation here produces and no parse here accepts. -/
inductive Json where
  | str : String → Json
  | obj : List (String × Json) → Json
  | other : Json

/-- The decimal digit character of a digit value, for `NaiveDate`'s
zero-padded ISO form (`'0'` has code point 48). -/
def digitChar (n : Nat) : Char :=
  Char.ofNat (48 + n % 10)

/-- The digit value of a decimal digit character, `none` on anything else. -/
def charToDigit (c : Char) : Option Nat :=
  if 48 ≤ c.toNat ∧ c.toNat ≤ 57 then some (c.toNat - 48) else none

/-- Days in a month under the Gregorian rules `chrono` uses to validate a
`NaiveDate`. -/
def daysInMonth (year month : Nat) : Nat :=
  if month = 2 then
    if year % 4 = 0 ∧ (year % 100 ≠ 0 ∨ year % 400 = 0) then 29 else 28
  else if month = 4 ∨ month = 6 ∨ month = 9 ∨ month = 11 then 30
  else 31

/-- The dates this program can hold: `input_user` (main.rs:172-182) accepts
only dates `chrono` parses (a real calendar day) with year 1909..=2024. -/
def ValidDate (d : Date) : Prop :=
  1909 ≤ d.year ∧ d.year ≤ 2024 ∧
  1 ≤ d.month ∧ d.month ≤ 12 ∧
  1 ≤ d.day ∧ d.day ≤ daysInMonth d.year d.month

instance (d : Date) : Decidable (ValidDate d) := by
  unfold ValidDate; infer_instance

/-- `chrono`'s serde form of a `NaiveDate`: the ISO `YYYY-MM-DD` character
sequence, zero-padded (years of this program are four digits wide). -/
def formatDate (d : Date) : List Char :=
  [digitChar (d.year / 1000 % 10), digitChar (d.year / 100 % 10),
   digitChar (d.year / 10 % 10), digitChar (d.year % 10), '-',
   digitChar (d.month / 10 % 10), digitChar (d.month % 10), '-',
   digitChar (d.day / 10 % 10), digitChar (d.day % 10)]

/-- `chrono`'s serde parse of a `NaiveDate`: a fixed-width `YYYY-MM-DD`
digit pattern naming a real calendar day, else a parse error (`none`). -/
def parseDate : List Char → Option Date
  | [y1, y2, y3, y4, s1, m1, m2, s2, d1, d2] =>
    if s1 = '-' ∧ s2 = '-' then
      match charToDigit y1, charToDigit y2, charToDigit y3, charToDigit y4,
            charToDigit m1, charToDigit m2, charToDigit d1, charToDigit d2 with
      | some a, some b, some c, some e, some f, some g, some h, some i =>
        let y := ((a * 10 + b) * 10 + c) * 10 + e
        let m := f * 10 + g
        let dy := h * 10 + i
        if 1 ≤ m ∧ m ≤ 12 ∧ 1 ≤ dy ∧ dy ≤ daysInMonth y m then
          some ⟨y, m, dy⟩
        else none
      | _, _, _, _, _, _, _, _ => none
    else none
  | _ => none

/-- The serde tag of a unit `UserRole` variant. -/
def roleToString : UserRole → String
  | UserRole.Admin => "Admin"
  | UserRole.User => "User"
  | UserRole.Guest => "Guest"

/-- serde's parse of a `UserRole` tag (case-sensitive). -/
def roleFromString : String → Option UserRole
  | "Admin" => some UserRole.Admin
  | "User" => some UserRole.User
  | "Guest" => some UserRole.Guest
  | _ => none

/-- Field lookup in a JSON object, as serde's derived `Deserialize` matches
fields by name. -/
def jLookup (fields : List (String × Json)) (key : String) : Option Json :=
  (fields.find? (fun p => p.1 = key)).map Prod.snd

/-- The string content of a JSON value, if it is a string. -/
def jString : Json → Option String
  | Json.str s => some s
  | _ => none

/-- The serde serialisation of a `User` (derived `Serialize`): an object with
the five fields in declaration order. -/
def userToJson (u : User) : Json :=
  Json.obj [("cpf", Json.str u.cpf), ("full_name", Json.str u.full_name),
            ("email", Json.str u.email),
            ("birth", Json.str (String.mk (formatDate u.birth))),
            ("role", Json.str (roleToString u.role))]

/-- The serde deserialisation of a `User` (derived `Deserialize`): an object
carrying all five fields, each of the right shape. -/
def userFromJson (j : Json) : Option User :=
  match j with
  | Json.obj fields =>
    match (jLookup fields "cpf").bind jString,
          (jLookup fields "full_name").bind jString,
          (jLookup fields "email").bind jString,
          (jLookup fields "birth").bind jString,
          (jLookup fields "role").bind jString with
    | some cpf, some full_name, some email, some birthStr, some roleStr =>
      match parseDate birthStr.data, roleFromString roleStr with
      | some birth, some role => some ⟨cpf, full_name, email, birth, role⟩
      | _, _ => none
    | _, _, _, _, _ => none
  | _ => none

/-- `serde_json::to_string(&*db)`: the snapshot document, one object whose
keys are the map's keys and whose values are the serialised records. -/
def dbToJson (db : Db) : Json :=
  Json.obj (db.map (fun p => (p.1, userToJson p.2)))

/-- Deserialising the entries of the snapshot object one by one; any bad
entry fails the whole parse. -/
def dbEntriesFromJson : List (String × Json) → Option (List (String × User))
  | [] => some []
  | (k, j) :: rest =>
    match userFromJson j, dbEntriesFromJson rest with
    | some u, some us => some ((k, u) :: us)
    | _, _ => none

/-- `serde_json::from_str::<HashMap<String, User>>`: the document must be one
object of `User` entries. -/
def dbFromJson (j : Json) : Option Db :=
  match j with
  | Json.obj fields => dbEntriesFromJson fields
  | _ => none

/-- `save_users_to_file` (main.rs:49-54): serialise the whole map and
overwrite `users_data.txt` (whatever it held before). -/
def save_users_to_file (db : Db) (_file : Option Json) : Option Json :=
  some (dbToJson db)

/-- `load_users_from_file` (main.rs:40-47): if the file exists, parse it and
replace the in-memory map, propagating a parse error with `?`; if the file is
absent the map is left as it is and the call succeeds. -/
def load_users_from_file (file : Option Json) (db : Db) : Except String Db :=
  match file with
  | none => Except.ok db
  | some j =>
    match dbFromJson j with
    | some users => Except.ok users
    | none => Except.error "PersistenceCorrupt"

/-- Startup (main.rs:30-33): the map is created empty, then
`load_users_from_file(&db)?` — a load error propagates out of `main` and the
process aborts before the menu loop. -/
def startup (file : Option Json) : Except String Db :=
  load_users_from_file file []

/-! ## Interaction shell

`display_menu` (main.rs:56-123) reads a menu choice and, per branch, reads
further input, calls a store operation and saves. Console input is the
external boundary: a branch together with the input it reads is modelled as a
`Command`. The function returns `Result<(), Box<dyn Error>>`; every `?` inside
a branch propagates the error to `main` (main.rs:35-37), whose own `?` inside
`loop { display_menu(&db).await?; }` aborts the process. Branch "5" calls
`process::exit(0)` and branch `_` just prints, both modelled as commands that
change nothing and succeed. -/

/-- One interactive command: the menu choice together with the input its
branch reads (`input_user` / `input_cpf`). -/
inductive Command where
  | add : User → Command
  | update : String → User → Command
  | delete : String → Command
  | showAll : Command
  | invalid : Command

/-- `display_menu` (main.rs:56-123), given the command the console input
encodes: the store and file afterwards when the branch completes, or the
error a `?` inside the branch propagates to `main`. Branch "2" only calls
`update_user` (and `input_user`) after `get_user` succeeded; a failed lookup
prints and falls through. Branch "3" checks `delete_user(..).is_ok()` and only
saves on success; either way it falls through. -/
def display_menu (cmd : Command) (db : Db) (file : Option Json) :
    Except String (Db × Option Json) :=
  match cmd with
  | Command.add user =>
    match set_user db user with
    | (Except.ok _, db) => Except.ok (db, save_users_to_file db file)
    | (Except.error e, _) => Except.error e
  | Command.update cpf user =>
    match (get_user db cpf).1 with
    | Except.ok _ =>
      match update_user db cpf user with
      | (Except.ok _, db) => Except.ok (db, save_users_to_file db file)
      | (Except.error e, _) => Except.error e
    | Except.error _ => Except.ok (db, file)
  | Command.delete cpf =>
    match delete_user db cpf with
    | (Except.ok _, db) => Except.ok (db, save_users_to_file db file)
    | (Except.error _, _) => Except.ok (db, file)
  | Command.showAll => Except.ok (db, file)
  | Command.invalid => Except.ok (db, file)

/-! ## Operation sequences

For the store-level invariant (spec §8 "Uniqueness") the five operations are
run as a sequence against the map, each op leaving whatever map state the
store code leaves (its result value is irrelevant to the invariant). -/

/-- One store operation, as the uniqueness property quantifies over them. -/
inductive Op where
  | create : User → Op
  | read : String → Op
  | readAll : Op
  | update : String → User → Op
  | delete : String → Op

/-- The map after one store operation (the second component each store
function returns). -/
def applyOp (db : Db) : Op → Db
  | Op.create u => (set_user db u).2
  | Op.read cpf => (get_user db cpf).2
  | Op.readAll => (get_users db).2
  | Op.update cpf u => (update_user db cpf u).2
  | Op.delete cpf => (delete_user db cpf).2

/-- The map reached from the empty store by a sequence of operations. -/
def runOps (ops : List Op) : Db :=
  ops.foldl applyOp []

/-- The keys of the map. -/
def dbKeys (db : Db) : List String :=
  db.map Prod.fst

/-- The ids carried inside the stored records, in entry order. -/
def dbCarriedIds (db : Db) : List String :=
  db.map (fun p => p.2.cpf)

/-! ## Map lemmas -/

/-- A key is contained exactly when it is among the keys. -/
theorem dbContains_iff_mem_keys (db : Db) (cpf : String) :
    dbContains db cpf = true ↔ cpf ∈ dbKeys db := by
  induction db with
  | nil => simp [dbContains, dbKeys]
  | cons p rest ih =>
    obtain ⟨k, v⟩ := p
    simp [dbContains, dbKeys, ih]
    tauto

/-- Lookup succeeds exactly when the key is contained. -/
theorem dbGet_isSome_eq_contains (db : Db) (cpf : String) :
    (dbGet db cpf).isSome = dbContains db cpf := by
  induction db with
  | nil => rfl
  | cons p rest ih =>
    obtain ⟨k, v⟩ := p
    by_cases h : k = cpf <;> simp [dbGet, dbContains, h, ih]

/-- After writing `u` under a contained key, lookup of that key yields `u`. -/
theorem dbGet_assign_self (db : Db) (cpf : String) (u : User)
    (h : dbContains db cpf = true) : dbGet (dbAssign db cpf u) cpf = some u := by
  induction db with
  | nil => simp [dbContains] at h
  | cons p rest ih =>
    obtain ⟨k, v⟩ := p
    by_cases hk : k = cpf
    · simp [dbAssign, dbGet, hk]
    · simp [dbContains, hk] at h
      simp [dbAssign, dbGet, hk, ih h]

/-- After removing a key, lookup of that key fails. -/
theorem dbGet_remove_self (db : Db) (cpf : String) :
    dbGet (dbRemove db cpf) cpf = none := by
  induction db with
  | nil => rfl
  | cons p rest ih =>
    obtain ⟨k, v⟩ := p
    by_cases hk : k = cpf <;> simp [dbRemove, dbGet, hk, ih]

/-- Writing a value under a key leaves the key list unchanged. -/
theorem dbKeys_assign (db : Db) (cpf : String) (u : User) :
    dbKeys (dbAssign db cpf u) = dbKeys db := by
  induction db with
  | nil => rfl
  | cons p rest ih =>
    obtain ⟨k, v⟩ := p
    by_cases hk : k = cpf <;> simp [dbAssign, dbKeys, hk] <;>
      simpa [dbKeys] using ih

/-- The keys after a removal are a sublist of the keys before. -/
theorem dbKeys_remove_sublist (db : Db) (cpf : String) :
    (dbKeys (dbRemove db cpf)).Sublist (dbKeys db) := by
  induction db with
  | nil => simp [dbRemove, dbKeys]
  | cons p rest ih =>
    obtain ⟨k, v⟩ := p
    by_cases hk : k = cpf
    · simp only [dbRemove, hk, if_pos]
      exact List.Sublist.trans ih (List.sublist_cons_self _ _)
    · simp only [dbRemove, hk, if_neg, not_false_iff, dbKeys, List.map_cons]
      exact List.Sublist.cons₂ _ ih

/-- Every store operation keeps the keys pairwise distinct. -/
theorem dbKeys_nodup_applyOp (db : Db) (op : Op)
    (h : (dbKeys db).Nodup) : (dbKeys (applyOp db op)).Nodup := by
  cases op with
  | create u =>
    simp only [applyOp, set_user]
    by_cases hc : dbContains db u.cpf
    · simp [hc, h]
    · simp only [hc, Bool.false_eq_true, if_neg, not_false_iff, dbKeys, List.map_cons]
      refine List.Nodup.cons ?_ h
      intro hmem
      exact hc ((dbContains_iff_mem_keys db u.cpf).mpr hmem)
  | read cpf =>
    simp only [applyOp, get_user]
    cases dbGet db cpf <;> simpa
  | readAll => simpa [applyOp, get_users]
  | update cpf u =>
    simp only [applyOp, update_user]
    by_cases hc : dbContains db cpf
    · simpa [hc, dbKeys_assign]
    · simpa [hc]
  | delete cpf =>
    simp only [applyOp, delete_user]
    cases dbGet db cpf with
    | none => simpa
    | some u => exact List.Nodup.sublist (dbKeys_remove_sublist db cpf) h

/-! ## Sample records

Concrete validated records for witnesses and counterexamples, with the field
shapes `input_user` admits (11-digit cpf, 10-100 char name, valid email of
15-50 chars, real calendar date with year 1909..=2024, one of the three
roles). `userA` mirrors the example record in spec §8. -/

def userA : User :=
  ⟨"12345678901", "Test User Name", "person.one@example.com", ⟨1995, 5, 15⟩, UserRole.User⟩

def userB : User :=
  ⟨"22222222222", "Second User Name", "person.two@example.com", ⟨1990, 12, 31⟩, UserRole.Admin⟩

def user99 : User :=
  ⟨"99999999999", "Updated User Name", "person.new@example.com", ⟨2000, 2, 29⟩, UserRole.Guest⟩

/-! ## Claims C1 and C2 -/

/-- C1, counterexample: `update_user` performs no immutable-key check. On a
store holding `userA` under `"12345678901"`, updating that id with `user99`
(whose `cpf` is `"99999999999"`) does not fail at all — it returns `Ok` and
overwrites the stored record (including its id field) with `user99`, so the
claim "fails with ImmutableKeyViolation and leaves the stored record
unchanged" is false at this input. -/
theorem update_id_mismatch_counterexample :
    user99.cpf ≠ "12345678901" ∧
    (update_user [("12345678901", userA)] "12345678901" user99).1 = Except.ok user99 ∧
    dbGet (update_user [("12345678901", userA)] "12345678901" user99).2 "12345678901"
      = some user99 :=
  ⟨by decide, rfl, rfl⟩

/-- C1, amended: for every store state and id present in it, `update(id,
new_record)` with any `new_record` — its `id` field equal to `id` or not —
succeeds, silently accepting the mismatch: the record stored under the
(unchanged) key `id` is wholly replaced by `new_record`, id field included. -/
theorem update_id_mismatch_replaces (db : Db) (cpf : String) (u : User)
    (h : dbContains db cpf = true) :
    (update_user db cpf u).1 = Except.ok u ∧
    dbGet (update_user db cpf u).2 cpf = some u := by
  simp [update_user, h, dbGet_assign_self db cpf u h]

/-- Witness for C1's amended theorem at a concrete mismatched update. -/
theorem update_id_mismatch_replaces_witness :
    (update_user [("12345678901", userA)] "12345678901" user99).1 = Except.ok user99 ∧
    dbGet (update_user [("12345678901", userA)] "12345678901" user99).2 "12345678901"
      = some user99 :=
  update_id_mismatch_replaces [("12345678901", userA)] "12345678901" user99 (by decide)

/-- C2, counterexample: because `update_user` accepts a record whose id field
differs from the lookup key, a create/create/update sequence from the empty
store reaches a state in which two distinct entries carry the same id inside
their stored records (both carry `userB`'s id). -/
theorem carried_ids_dup_counterexample :
    ¬ (dbCarriedIds (runOps
        [Op.create userA, Op.create userB, Op.update "12345678901" userB])).Nodup := by
  decide

/-- C2, amended: for every sequence of create/read/read_all/update/delete
operations from the empty store, at no point do two distinct entries share
the same key (the id under which they are stored); the id field carried
inside a stored record can however be duplicated, as the counterexample
shows. -/
theorem runOps_keys_nodup (ops : List Op) : (dbKeys (runOps ops)).Nodup := by
  have aux : ∀ (l : List Op) (db : Db),
      (dbKeys db).Nodup → (dbKeys (List.foldl applyOp db l)).Nodup := by
    intro l
    induction l with
    | nil => intro db h; simpa
    | cons op rest ih => intro db h; exact ih _ (dbKeys_nodup_applyOp db op h)
  simpa [runOps] using aux ops [] (by simp [dbKeys])

/-! ## Claims C3-C6 -/

/-- C3: creating an id that is already present always fails with the
`DuplicateKey` error and leaves the collection — hence also the first
record's fields — exactly as it was; no partial insert is observable. -/
theorem create_duplicate_fails_unchanged (db : Db) (u : User)
    (h : dbContains db u.cpf = true) :
    (set_user db u).1 = Except.error duplicateKeyMsg ∧ (set_user db u).2 = db := by
  simp [set_user, h]

/-- Witness for C3: a second create of `userA` on a store already holding it. -/
theorem create_duplicate_fails_unchanged_witness :
    (set_user [("12345678901", userA)] userA).1 = Except.error duplicateKeyMsg ∧
    (set_user [("12345678901", userA)] userA).2 = [("12345678901", userA)] :=
  create_duplicate_fails_unchanged [("12345678901", userA)] userA (by decide)

/-- C4: when `r.id` is not yet present, `create(r)` succeeds and a `read(r.id)`
on the resulting store succeeds and returns a value equal to `r`. -/
theorem read_after_create (db : Db) (u : User)
    (h : dbContains db u.cpf = false) :
    (set_user db u).1 = Except.ok u ∧
    (get_user (set_user db u).2 u.cpf).1 = Except.ok u := by
  simp [set_user, h, get_user, dbGet]

/-- Witness for C4: create `userA` on the empty store, then read it back. -/
theorem read_after_create_witness :
    (set_user [] userA).1 = Except.ok userA ∧
    (get_user (set_user [] userA).2 userA.cpf).1 = Except.ok userA :=
  read_after_create [] userA (by decide)

/-- C5: when `id` is present, `update(id, r2)` succeeds and a `read(id)` on the
resulting store returns exactly `r2` — every field replaced, not merged. -/
theorem read_after_update (db : Db) (cpf : String) (u2 : User)
    (h : dbContains db cpf = true) :
    (update_user db cpf u2).1 = Except.ok u2 ∧
    (get_user (update_user db cpf u2).2 cpf).1 = Except.ok u2 := by
  simp [update_user, h, get_user, dbGet_assign_self db cpf u2 h]

/-- Witness for C5: update `userA`'s entry with `userB` and read it back. -/
theorem read_after_update_witness :
    (update_user [("12345678901", userA)] "12345678901" userB).1 = Except.ok userB ∧
    (get_user (update_user [("12345678901", userA)] "12345678901" userB).2
        "12345678901").1 = Except.ok userB :=
  read_after_update [("12345678901", userA)] "12345678901" userB (by decide)

/-- C6: `delete(id)` succeeds exactly when `id` is present, fails with the
`NotFound` error otherwise, and after a successful delete a `read(id)` on the
resulting store fails with `NotFound`. -/
theorem delete_present_and_read_after_delete (db : Db) (cpf : String) :
    ((delete_user db cpf).1 = Except.ok () ↔ dbContains db cpf = true) ∧
    (dbContains db cpf = false → (delete_user db cpf).1 = Except.error notFoundMsg) ∧
    (dbContains db cpf = true →
      (get_user (delete_user db cpf).2 cpf).1 = Except.error notFoundMsg) := by
  have hs := dbGet_isSome_eq_contains db cpf
  cases h : dbGet db cpf with
  | none =>
    have hcf : dbContains db cpf = false := by rw [← hs, h]; rfl
    refine ⟨?_, fun _ => ?_, fun hc => ?_⟩
    · simp [delete_user, h, hcf]
    · simp [delete_user, h]
    · rw [hcf] at hc
      simp at hc
  | some v =>
    have hct : dbContains db cpf = true := by rw [← hs, h]; rfl
    refine ⟨?_, fun hc => ?_, fun _ => ?_⟩
    · simp [delete_user, h, hct]
    · rw [hct] at hc
      simp at hc
    · simp [delete_user, h, get_user, dbGet_remove_self db cpf]

/-- Witness for C6: delete `userA`'s entry and read it back. -/
theorem delete_present_and_read_after_delete_witness :
    (get_user (delete_user [("12345678901", userA)] "12345678901").2
        "12345678901").1 = Except.error notFoundMsg :=
  (delete_present_and_read_after_delete [("12345678901", userA)] "12345678901").2.2
    (by decide)

/-! ## Claims C7 and C8: persistence round-trip and load behaviour -/

/-- Reading a digit character back undoes writing it, for actual digits. -/
theorem charToDigit_digitChar (n : Nat) (h : n < 10) :
    charToDigit (digitChar n) = some n := by
  interval_cases n <;> rfl

/-- Every month length is at most 31 days. -/
theorem daysInMonth_le (year month : Nat) : daysInMonth year month ≤ 31 := by
  unfold daysInMonth
  split_ifs <;> norm_num

/-- Parsing undoes formatting for every date this program can store. -/
theorem parseDate_formatDate (d : Date) (h : ValidDate d) :
    parseDate (formatDate d) = some d := by
  obtain ⟨hy1, hy2, hm1, hm2, hd1, hd2⟩ := h
  have hdle : d.day ≤ 31 := le_trans hd2 (daysInMonth_le d.year d.month)
  simp only [formatDate, parseDate]
  rw [charToDigit_digitChar (d.year / 1000 % 10) (Nat.mod_lt _ (by norm_num)),
      charToDigit_digitChar (d.year / 100 % 10) (Nat.mod_lt _ (by norm_num)),
      charToDigit_digitChar (d.year / 10 % 10) (Nat.mod_lt _ (by norm_num)),
      charToDigit_digitChar (d.year % 10) (Nat.mod_lt _ (by norm_num)),
      charToDigit_digitChar (d.month / 10 % 10) (Nat.mod_lt _ (by norm_num)),
      charToDigit_digitChar (d.month % 10) (Nat.mod_lt _ (by norm_num)),
      charToDigit_digitChar (d.day / 10 % 10) (Nat.mod_lt _ (by norm_num)),
      charToDigit_digitChar (d.day % 10) (Nat.mod_lt _ (by norm_num))]
  have ey : (((d.year / 1000 % 10) * 10 + d.year / 100 % 10) * 10 + d.year / 10 % 10) * 10
      + d.year % 10 = d.year := by omega
  have em : (d.month / 10 % 10) * 10 + d.month % 10 = d.month := by omega
  have ed : (d.day / 10 % 10) * 10 + d.day % 10 = d.day := by omega
  simp only [ey, em, ed]
  have : 1 ≤ d.month ∧ d.month ≤ 12 ∧ 1 ≤ d.day ∧ d.day ≤ daysInMonth d.year d.month :=
    ⟨hm1, hm2, hd1, hd2⟩
  simp [this]

/-- Parsing a role tag undoes writing it. -/
theorem roleFromString_roleToString (r : UserRole) :
    roleFromString (roleToString r) = some r := by
  cases r <;> rfl

/-- Deserialising undoes serialising one record, for every record whose date
this program can store. -/
theorem userFromJson_userToJson (u : User) (h : ValidDate u.birth) :
    userFromJson (userToJson u) = some u := by
  have step : userFromJson (userToJson u) =
      (match parseDate (formatDate u.birth), roleFromString (roleToString u.role) with
       | some birth, some role => some ⟨u.cpf, u.full_name, u.email, birth, role⟩
       | _, _ => none) := rfl
  rw [step, parseDate_formatDate u.birth h, roleFromString_roleToString u.role]

/-- Deserialising undoes serialising the whole entry list, when every stored
date is one this program can hold. -/
theorem dbEntriesFromJson_roundtrip (db : Db)
    (h : ∀ p ∈ db, ValidDate (p.2).birth) :
    dbEntriesFromJson (db.map (fun p => (p.1, userToJson p.2))) = some db := by
  induction db with
  | nil => rfl
  | cons p rest ih =>
    have hp : ValidDate (p.2).birth := h p (List.mem_cons_self p rest)
    have hrest : ∀ q ∈ rest, ValidDate (q.2).birth :=
      fun q hq => h q (List.mem_cons_of_mem p hq)
    simp [dbEntriesFromJson, userFromJson_userToJson p.2 hp, ih hrest]

/-- C7: for every collection of storable records (zero, one or many), saving
it and then loading yields exactly the original collection, whatever the file
held before the save and whatever the in-memory map held before the load. -/
theorem save_then_load_roundtrip (db : Db) (file : Option Json) (dbinit : Db)
    (h : ∀ p ∈ db, ValidDate (p.2).birth) :
    load_users_from_file (save_users_to_file db file) dbinit = Except.ok db := by
  simp [save_users_to_file, load_users_from_file, dbToJson, dbFromJson,
        dbEntriesFromJson_roundtrip db h]

/-- Witness for C7: round-tripping a one-record collection. -/
theorem save_then_load_roundtrip_witness :
    load_users_from_file (save_users_to_file [("12345678901", userA)] none) []
      = Except.ok [("12345678901", userA)] :=
  save_then_load_roundtrip [("12345678901", userA)] none [] (by decide)

/-- C8: at startup the map begins empty; an absent snapshot file is no error
and leaves the collection empty, while a snapshot that exists but fails to
parse makes `load_users_from_file` return an error, which `main`'s `?`
propagates, aborting startup. -/
theorem load_absent_empty_corrupt_fatal :
    startup none = Except.ok [] ∧
    ∀ j : Json, dbFromJson j = none → startup (some j) = Except.error "PersistenceCorrupt" := by
  refine ⟨rfl, fun j h => ?_⟩
  simp [startup, load_users_from_file, h]

/-- Witness for C8: a string document is not an object of records, so startup
on it aborts; startup on an absent file yields the empty collection. -/
theorem load_absent_empty_corrupt_fatal_witness :
    startup none = Except.ok [] ∧
    startup (some (Json.str "not a users map")) = Except.error "PersistenceCorrupt" :=
  ⟨load_absent_empty_corrupt_fatal.1,
   load_absent_empty_corrupt_fatal.2 (Json.str "not a users map") rfl⟩

/-! ## Claims C9 and C10: shell error propagation and read-only reads -/

/-- C9, counterexample: a `DuplicateKey` failure from the create branch is not
rendered-and-continued. `display_menu` forwards `set_user`'s error with `?`,
and `main`'s own `?` around `display_menu` aborts the process: on a store
already holding `userA`, the "add `userA`" command makes `display_menu`
return the `DuplicateKey` error instead of completing the iteration. -/
theorem duplicate_create_fatal_counterexample :
    display_menu (Command.add userA) [("12345678901", userA)] none
      = Except.error duplicateKeyMsg := rfl

/-- C9, amended: a menu iteration propagates an error to `main` (aborting the
process) exactly when the command is a create whose record's id is already
present; every other command — including update and delete of an absent id,
whose `NotFound` failures the shell renders before falling through — completes
the iteration and the loop continues. -/
theorem display_menu_error_iff_duplicate_create (cmd : Command) (db : Db)
    (file : Option Json) :
    (display_menu cmd db file).isOk = false ↔
      ∃ u, cmd = Command.add u ∧ dbContains db u.cpf = true := by
  cases cmd with
  | add u =>
    by_cases hc : dbContains db u.cpf
    · simp only [display_menu, set_user, hc, if_pos]
      constructor
      · intro _
        exact ⟨u, rfl, hc⟩
      · intro _
        rfl
    · simp only [display_menu, set_user, hc, Bool.false_eq_true, if_neg, not_false_iff]
      constructor
      · intro h
        simp [Except.isOk, Except.toBool] at h
      · rintro ⟨u', hu', hcu'⟩
        cases hu'
        exact absurd hcu' hc
  | update cpf u =>
    have hs := dbGet_isSome_eq_contains db cpf
    cases h : dbGet db cpf with
    | none =>
      simp only [display_menu, get_user, h]
      constructor
      · intro hbad
        simp [Except.isOk, Except.toBool] at hbad
      · rintro ⟨u', hu', -⟩
        cases hu'
    | some v =>
      have hct : dbContains db cpf = true := by rw [← hs, h]; rfl
      simp only [display_menu, get_user, h, update_user, hct, if_pos]
      constructor
      · intro hbad
        simp [Except.isOk, Except.toBool] at hbad
      · rintro ⟨u', hu', -⟩
        cases hu'
  | delete cpf =>
    cases h : dbGet db cpf with
    | none =>
      simp only [display_menu, delete_user, h]
      constructor
      · intro hbad
        simp [Except.isOk, Except.toBool] at hbad
      · rintro ⟨u', hu', -⟩
        cases hu'
    | some v =>
      simp only [display_menu, delete_user, h]
      constructor
      · intro hbad
        simp [Except.isOk, Except.toBool] at hbad
      · rintro ⟨u', hu', -⟩
        cases hu'
  | showAll =>
    constructor
    · intro hbad
      simp [display_menu, Except.isOk, Except.toBool] at hbad
    · rintro ⟨u', hu', -⟩
      cases hu'
  | invalid =>
    constructor
    · intro hbad
      simp [display_menu, Except.isOk, Except.toBool] at hbad
    · rintro ⟨u', hu', -⟩
      cases hu'

/-- C10: `get_user` and `get_users` leave the map exactly as it was, whether
the lookup succeeds or fails. -/
theorem reads_leave_map_unchanged (db : Db) (cpf : String) :
    (get_user db cpf).2 = db ∧ (get_users db).2 = db := by
  constructor
  · unfold get_user
    cases dbGet db cpf <;> rfl
  · rfl
